import Mathlib

/-!
Shallow embedding of the tfhe-go key-lifecycle and execution-context
management layer.

The Go layer under verification wraps an external homomorphic-encryption
engine (a C library reached through cgo).  The spec treats that engine as a
black box with an idealized contract: a ciphertext decrypts to the plaintext
it was built from, homomorphic operations act on plaintexts, serialization
is lossless and deterministic, and deserialization rejects structurally
invalid bytes.  Accordingly the engine primitives below are modelled from
the spec (ideal semantics, with fallibility of the opaque status codes kept
as explicit `Int` code parameters where a claim depends on failure paths),
while every Go function of the wrapper (`part_000`, `service.go`) is
translated statement by statement.

Handles: a Go handle is a pointer to a struct holding a C pointer field.
`GoRef α` models it as `Option (GoPtr α)`: the outer `Option` is the Go
pointer itself (nil receiver), the `ptr` field is `none` once released.

Traces: the context-binding discipline (`withServerKey`) and the
handle-release discipline of the service layer are observable only as
event sequences, so the corresponding functions also return a `List Ev`
of lock/bind/unbind/unlock and alloc/release events, in execution order.
-/

namespace TfheGo

/-- Go errors are modelled as their message strings. -/
abbrev Err := String

/-- Byte sequences crossing the serialization boundary. -/
abbrev Bytes := List Nat

/-- A Go handle struct with a single C-pointer field; `ptr = none` models a
released (nil) underlying pointer. -/
structure GoPtr (α : Type) where
  ptr : Option α
deriving DecidableEq

/-- A Go pointer to a handle struct: `none` models the nil pointer itself. -/
abbrev GoRef (α : Type) := Option (GoPtr α)

/-- The nil-handle test used throughout the wrapper: receiver nil or
pointer field nil (`c == nil || c.ptr == nil`). -/
def isNilRef {α : Type} (r : GoRef α) : Bool :=
  match r with
  | none => true
  | some p => p.ptr.isNone

/-- Builds a live handle holding payload `a`. -/
def mkRef {α : Type} (a : α) : GoRef α := some ⟨some a⟩

/-- Reads the payload of a handle, if live. -/
def refVal {α : Type} (r : GoRef α) : Option α :=
  match r with
  | some ⟨some a⟩ => some a
  | _ => none

/-- check (part_000): converts a nonzero engine status code into a Go error
string, exactly in the source's format. -/
def checkMsg (context : String) (code : Int) : Err :=
  context ++ (": tfhe error code ") ++ toString code

/-! ## Engine model

The primitives of the external engine, modelled from the spec.  Ideal
semantics: a boolean ciphertext is its plaintext bit, an integer ciphertext
is its 8-bit plaintext value; key payloads are `Unit` (boolean family) or a
`Nat` identity (the integer server key, whose identity the ambient-binding
claims track). -/

/-- Modelled from the spec: engine serialization of a boolean ciphertext is a
lossless, deterministic, nonempty byte encoding (spec section 3 invariant). -/
def boolSerE (b : Bool) : Bytes := [if b then 1 else 0]

/-- Modelled from the spec: engine deserialization of a boolean ciphertext;
structurally invalid bytes fail (spec sections 3 and 4.2). -/
def boolDeserE (data : Bytes) : Option Bool :=
  match data with
  | [0] => some false
  | [1] => some true
  | _ => none

/-- Modelled from the spec: engine serialization of an 8-bit integer
ciphertext. -/
def u8SerE (v : Fin 256) : Bytes := [v.val]

/-- Modelled from the spec: engine deserialization of an 8-bit integer
ciphertext; structurally invalid bytes fail. -/
def u8DeserE (data : Bytes) : Option (Fin 256) :=
  match data with
  | [b] => if h : b < 256 then some ⟨b, h⟩ else none
  | _ => none

/-- Modelled from the spec: engine homomorphic addition on 8-bit plaintexts
wraps modulo 256 (spec section 8). -/
def u8addE (a b : Fin 256) : Fin 256 := a + b

/-- Modelled from the spec: engine homomorphic bitwise AND on 8-bit
plaintexts (native bitwise semantics, spec section 8). -/
def u8landE (a b : Fin 256) : Fin 256 :=
  ⟨a.val &&& b.val, by simpa using Nat.and_lt_two_pow (n := 8) a.val b.isLt⟩

/-- Modelled from the spec: engine homomorphic bitwise XOR on 8-bit
plaintexts (native bitwise semantics, spec section 8). -/
def u8xorE (a b : Fin 256) : Fin 256 :=
  ⟨a.val ^^^ b.val, by simpa using Nat.xor_lt_two_pow (n := 8) a.isLt b.isLt⟩

/-! ## Events

Observable effects of an operation, in execution order. -/

/-- Observable events: OS-thread pinning, ambient server-key registration
(with the bound key's identity), deregistration, unpinning, and ciphertext
handle creation/release (with a per-run handle id). -/
inductive Ev : Type where
  | lockThread : Ev
  | setKey : Nat → Ev
  | unsetKey : Ev
  | unlockThread : Ev
  | alloc : Nat → Ev
  | release : Nat → Ev
deriving DecidableEq

/-! ## Base64 transport codec

Go's encoding/base64 StdEncoding, as used by the service layer: standard
alphabet, mandatory padding, invalid characters and incomplete final blocks
rejected (trailing padding bits are not checked, matching the non-strict
default decoder). -/

/-- The standard base64 alphabet of Go's encoding/base64 StdEncoding. -/
def b64Alphabet : List Char :=
  ("ABCDEFGHIJKLMNOPQRSTUVWXYZabcdefghijklmnopqrstuvwxyz0123456789+/").toList

/-- Position of a character in the standard base64 alphabet, if present. -/
def b64Idx (c : Char) : Option Nat := b64Alphabet.indexOf? c

/-- Character for a six-bit group. -/
def b64EncChar (i : Nat) : Char := b64Alphabet.getD i ('A')

/-- Encodes bytes three at a time into four-character blocks, padding the
final partial block with `=`. -/
def b64EncodeChunks : Bytes → List Char
  | [] => []
  | [b1] =>
    [b64EncChar (b1 / 4), b64EncChar (b1 % 4 * 16), '=', '=']
  | [b1, b2] =>
    [b64EncChar (b1 / 4), b64EncChar (b1 % 4 * 16 + b2 / 16),
     b64EncChar (b2 % 16 * 4), '=']
  | b1 :: b2 :: b3 :: rest =>
    b64EncChar (b1 / 4) :: b64EncChar (b1 % 4 * 16 + b2 / 16) ::
      b64EncChar (b2 % 16 * 4 + b3 / 64) :: b64EncChar (b3 % 64) ::
      b64EncodeChunks rest

/-- base64.StdEncoding.EncodeToString. -/
def b64Encode (data : Bytes) : String := String.mk (b64EncodeChunks data)

/-- Decodes four-character blocks; fails on characters outside the alphabet,
on misplaced padding, and on input whose length is not a multiple of four. -/
def b64DecodeChunks : List Char → Option Bytes
  | [] => some []
  | c1 :: c2 :: c3 :: c4 :: rest =>
    match b64Idx c1, b64Idx c2 with
    | some i1, some i2 =>
      if c3 = '=' then
        if c4 = '=' ∧ rest = [] then some [i1 * 4 + i2 / 16] else none
      else
        match b64Idx c3 with
        | some i3 =>
          if c4 = '=' then
            if rest = [] then some [i1 * 4 + i2 / 16, i2 % 16 * 16 + i3 / 4]
            else none
          else
            match b64Idx c4 with
            | some i4 =>
              match b64DecodeChunks rest with
              | some tl =>
                some ((i1 * 4 + i2 / 16) :: (i2 % 16 * 16 + i3 / 4) ::
                      (i3 % 4 * 64 + i4) :: tl)
              | none => none
            | none => none
        | none => none
    | _, _ => none
  | _ => none

/-- base64.StdEncoding.DecodeString; `none` models the CorruptInputError. -/
def b64Decode (s : String) : Option Bytes := b64DecodeChunks s.toList

/-! ## part_000: low-level wrapper functions -/

/-- EncryptBool (part_000): fails fast on a nil client key, otherwise a fresh
ciphertext handle holding the plaintext. -/
def encryptBool (client : GoRef Unit) (value : Bool) : Except Err (GoRef Bool) :=
  if isNilRef client then .error ("client key is nil")
  else .ok (mkRef value)

/-- DecryptBool (part_000): nil checks on key and ciphertext, then the
engine decryption (ideal: the stored plaintext). -/
def decryptBool (client : GoRef Unit) (ct : GoRef Bool) : Except Err Bool :=
  if isNilRef client then .error ("client key is nil")
  else match refVal ct with
    | none => .error ("ciphertext is nil")
    | some b => .ok b

/-- ServerKey.And (part_000): nil checks on key and operands, then the
engine AND gate; returns a fresh result handle. -/
def serverKeyAnd (s : GoRef Unit) (lhs rhs : GoRef Bool) : Except Err (GoRef Bool) :=
  if isNilRef s then .error ("server key is nil")
  else match refVal lhs, refVal rhs with
    | some a, some b => .ok (mkRef (a && b))
    | _, _ => .error ("ciphertext is nil")

/-- ServerKey.Or (part_000). -/
def serverKeyOr (s : GoRef Unit) (lhs rhs : GoRef Bool) : Except Err (GoRef Bool) :=
  if isNilRef s then .error ("server key is nil")
  else match refVal lhs, refVal rhs with
    | some a, some b => .ok (mkRef (a || b))
    | _, _ => .error ("ciphertext is nil")

/-- ServerKey.Xor (part_000). -/
def serverKeyXor (s : GoRef Unit) (lhs rhs : GoRef Bool) : Except Err (GoRef Bool) :=
  if isNilRef s then .error ("server key is nil")
  else match refVal lhs, refVal rhs with
    | some a, some b => .ok (mkRef (xor a b))
    | _, _ => .error ("ciphertext is nil")

/-- ServerKey.Not (part_000): unary gate. -/
def serverKeyNot (s : GoRef Unit) (input : GoRef Bool) : Except Err (GoRef Bool) :=
  if isNilRef s then .error ("server key is nil")
  else match refVal input with
    | some a => .ok (mkRef (!a))
    | none => .error ("ciphertext is nil")

/-- Ciphertext.Serialize (part_000): nil check, then engine serialization
into a fresh byte buffer. -/
def ctSerialize (c : GoRef Bool) : Except Err Bytes :=
  match refVal c with
  | none => .error ("ciphertext is nil")
  | some b => .ok (boolSerE b)

/-- DeserializeCiphertext (part_000): empty input is rejected before the
engine is called; engine rejection of invalid bytes maps through check. -/
def deserializeCiphertext (data : Bytes) : Except Err (GoRef Bool) :=
  if data = [] then .error ("ciphertext data is empty")
  else match boolDeserE data with
    | none => .error (checkMsg ("deserialize ciphertext") 1)
    | some b => .ok (mkRef b)

/-- EncryptUint8 (part_000). -/
def encryptUint8 (client : GoRef Unit) (value : Fin 256) :
    Except Err (GoRef (Fin 256)) :=
  if isNilRef client then .error ("client key is nil")
  else .ok (mkRef value)

/-- EncryptUint8Public (part_000). -/
def encryptUint8Public (pub : GoRef Unit) (value : Fin 256) :
    Except Err (GoRef (Fin 256)) :=
  if isNilRef pub then .error ("public key is nil")
  else .ok (mkRef value)

/-- DecryptUint8 (part_000). -/
def decryptUint8 (client : GoRef Unit) (ct : GoRef (Fin 256)) :
    Except Err (Fin 256) :=
  if isNilRef client then .error ("client key is nil")
  else match refVal ct with
    | none => .error ("ciphertext is nil")
    | some v => .ok v

/-- NewUint8PublicKey (part_000): derives a public key from a live client
key; fails fast on a nil client key. -/
def newUint8PublicKey (client : GoRef Unit) : Except Err (GoRef Unit) :=
  if isNilRef client then .error ("client key is nil")
  else .ok (mkRef ())

/-- Uint8Ciphertext.Uint8Serialize (part_000). -/
def uint8Serialize (c : GoRef (Fin 256)) : Except Err Bytes :=
  match refVal c with
  | none => .error ("ciphertext is nil")
  | some v => .ok (u8SerE v)

/-- Uint8Deserialize (part_000): empty input rejected before the engine. -/
def uint8Deserialize (data : Bytes) : Except Err (GoRef (Fin 256)) :=
  if data = [] then .error ("ciphertext data is empty")
  else match u8DeserE data with
    | none => .error (checkMsg ("deserialize uint8 ciphertext") 1)
    | some v => .ok (mkRef v)

/-- withServerKey (part_000): nil check on the ambient key, pin the OS
thread, register the key (engine status `setCode`), run `fn`, then the
deferred deregistration and unpinning fire in LIFO order on every path that
reached their defer statements. -/
def withServerKey {α : Type} (setCode : Int) (sk : GoRef Nat) (fn : Except Err α) :
    Except Err α × List Ev :=
  match refVal sk with
  | none => (.error ("server key is nil"), [])
  | some n =>
    if setCode ≠ 0 then
      (.error (checkMsg ("set server key") setCode), [.lockThread, .unlockThread])
    else
      (fn, [.lockThread, .setKey n, .unsetKey, .unlockThread])

/-- Uint8Add (part_000): nil checks on the operands, then the engine addition
(status `opCode`) inside the ambient server-key scope over `glob`, the
process-wide holder's key. -/
def uint8Add (setCode opCode : Int) (glob : GoRef Nat)
    (lhs rhs : GoRef (Fin 256)) : Except Err (GoRef (Fin 256)) × List Ev :=
  match refVal lhs, refVal rhs with
  | some a, some b =>
    let p := withServerKey setCode glob
      (if opCode ≠ 0 then .error (checkMsg ("uint8 add") opCode)
       else .ok (u8addE a b))
    (p.1.map mkRef, p.2)
  | _, _ => (.error ("ciphertext is nil"), [])

/-- Uint8BitAnd (part_000). -/
def uint8BitAnd (setCode opCode : Int) (glob : GoRef Nat)
    (lhs rhs : GoRef (Fin 256)) : Except Err (GoRef (Fin 256)) × List Ev :=
  match refVal lhs, refVal rhs with
  | some a, some b =>
    let p := withServerKey setCode glob
      (if opCode ≠ 0 then .error (checkMsg ("uint8 bitand") opCode)
       else .ok (u8landE a b))
    (p.1.map mkRef, p.2)
  | _, _ => (.error ("ciphertext is nil"), [])

/-- Uint8BitXor (part_000). -/
def uint8BitXor (setCode opCode : Int) (glob : GoRef Nat)
    (lhs rhs : GoRef (Fin 256)) : Except Err (GoRef (Fin 256)) × List Ev :=
  match refVal lhs, refVal rhs with
  | some a, some b =>
    let p := withServerKey setCode glob
      (if opCode ≠ 0 then .error (checkMsg ("uint8 bitxor") opCode)
       else .ok (u8xorE a b))
    (p.1.map mkRef, p.2)
  | _, _ => (.error ("ciphertext is nil"), [])

/-! ## part_000: Close functions

Each Close is a no-op on a nil receiver or an already-cleared pointer; on a
live pointer it calls the engine destroy (status `d`), and only on success
clears the pointer.  The returned ref is the receiver's state after the
call (unchanged on the error path, which Go leaves in place). -/

/-- ClientKey.Close (part_000). -/
def clientKeyClose (d : Int) (c : GoRef Unit) : Except Err (GoRef Unit) :=
  match c with
  | none => .ok none
  | some p =>
    match p.ptr with
    | none => .ok (some p)
    | some _ =>
      if d ≠ 0 then .error (checkMsg ("destroy client key") d)
      else .ok (some ⟨none⟩)

/-- ServerKey.Close (part_000). -/
def serverKeyClose (d : Int) (c : GoRef Unit) : Except Err (GoRef Unit) :=
  match c with
  | none => .ok none
  | some p =>
    match p.ptr with
    | none => .ok (some p)
    | some _ =>
      if d ≠ 0 then .error (checkMsg ("destroy server key") d)
      else .ok (some ⟨none⟩)

/-- Ciphertext.Close (part_000). -/
def ciphertextClose (d : Int) (c : GoRef Bool) : Except Err (GoRef Bool) :=
  match c with
  | none => .ok none
  | some p =>
    match p.ptr with
    | none => .ok (some p)
    | some _ =>
      if d ≠ 0 then .error (checkMsg ("destroy ciphertext") d)
      else .ok (some ⟨none⟩)

/-- Uint8ClientKey.Close (part_000). -/
def uint8ClientKeyClose (d : Int) (c : GoRef Unit) : Except Err (GoRef Unit) :=
  match c with
  | none => .ok none
  | some p =>
    match p.ptr with
    | none => .ok (some p)
    | some _ =>
      if d ≠ 0 then .error (checkMsg ("destroy client key") d)
      else .ok (some ⟨none⟩)

/-- Uint8ServerKey.Close (part_000): additionally drops the thread-local
registration first, ignoring its status, before destroying the key. -/
def uint8ServerKeyClose (unsetCode d : Int) (c : GoRef Nat) :
    Except Err (GoRef Nat) :=
  match c with
  | none => .ok none
  | some p =>
    match p.ptr with
    | none => .ok (some p)
    | some _ =>
      let _ := checkMsg ("unset server key") unsetCode
      if d ≠ 0 then .error (checkMsg ("destroy server key") d)
      else .ok (some ⟨none⟩)

/-- Uint8PublicKey.Close (part_000). -/
def uint8PublicKeyClose (d : Int) (c : GoRef Unit) : Except Err (GoRef Unit) :=
  match c with
  | none => .ok none
  | some p =>
    match p.ptr with
    | none => .ok (some p)
    | some _ =>
      if d ≠ 0 then .error (checkMsg ("destroy public key") d)
      else .ok (some ⟨none⟩)

/-- Uint8Ciphertext.Close (part_000). -/
def uint8CtClose (d : Int) (c : GoRef (Fin 256)) : Except Err (GoRef (Fin 256)) :=
  match c with
  | none => .ok none
  | some p =>
    match p.ptr with
    | none => .ok (some p)
    | some _ =>
      if d ≠ 0 then .error (checkMsg ("destroy uint8 ciphertext") d)
      else .ok (some ⟨none⟩)

/-! ## service.go: instrumentation state -/

/-- Per-operation instrumentation state: the next fresh handle id and the
events so far, in execution order. -/
structure St where
  nextId : Nat
  evs : List Ev
deriving DecidableEq

/-- The empty state a service call starts from. -/
def st0 : St := ⟨0, []⟩

/-- Records creation of a fresh handle, returning its id. -/
def St.alloc (s : St) : Nat × St :=
  (s.nextId, ⟨s.nextId + 1, s.evs ++ [.alloc s.nextId]⟩)

/-- Records a handle release (a deferred Close firing). -/
def St.rel (s : St) (i : Nat) : St := ⟨s.nextId, s.evs ++ [.release i]⟩

/-- Appends the events of a nested ambient-key scope. -/
def St.app (s : St) (l : List Ev) : St := ⟨s.nextId, s.evs ++ l⟩

/-! ## service.go: boolean service -/

/-- BooleanService (service.go): the client and server keys the service
owns. -/
structure BooleanService where
  client : GoRef Unit
  server : GoRef Unit
deriving DecidableEq

/-- NewBooleanService (service.go): fresh live keys (key generation succeeds
in the ideal engine). -/
def newBooleanService : BooleanService := ⟨mkRef (), mkRef ()⟩

/-- deserialize (service.go): empty-string check, base64 decode, then
DeserializeCiphertext; a successful deserialization creates a handle. -/
def svcDeserialize (ctBase64 : String) (s : St) :
    Except Err (GoRef Bool × Nat) × St :=
  if ctBase64 = "" then (.error ("ciphertext is empty"), s)
  else match b64Decode ctBase64 with
    | none => (.error ("illegal base64 data"), s)
    | some raw =>
      match deserializeCiphertext raw with
      | .error e => (.error e, s)
      | .ok ct =>
        let (i, s) := s.alloc
        (.ok (ct, i), s)

/-- serializeToBase64 (service.go). -/
def serializeToBase64 (ct : GoRef Bool) : Except Err String :=
  (ctSerialize ct).map b64Encode

/-- binaryOp (service.go): deserialize both operands, run the gate,
serialize; the deferred Closes fire in LIFO order on every exit path. -/
def binaryOp (op : GoRef Bool → GoRef Bool → Except Err (GoRef Bool))
    (lhsB rhsB : String) (s : St) : Except Err String × St :=
  match svcDeserialize lhsB s with
  | (.error e, s) => (.error e, s)
  | (.ok (lct, li), s) =>
    match svcDeserialize rhsB s with
    | (.error e, s) => (.error e, s.rel li)
    | (.ok (rct, ri), s) =>
      match op lct rct with
      | .error e => (.error e, (s.rel ri).rel li)
      | .ok outCt =>
        let (oi, s) := s.alloc
        match serializeToBase64 outCt with
        | .error e => (.error e, ((s.rel oi).rel ri).rel li)
        | .ok str => (.ok str, ((s.rel oi).rel ri).rel li)

/-- AndBase64 (service.go). -/
def andBase64 (svc : BooleanService) (lhs rhs : String) (s : St) :
    Except Err String × St :=
  binaryOp (serverKeyAnd svc.server) lhs rhs s

/-- OrBase64 (service.go). -/
def orBase64 (svc : BooleanService) (lhs rhs : String) (s : St) :
    Except Err String × St :=
  binaryOp (serverKeyOr svc.server) lhs rhs s

/-- XorBase64 (service.go). -/
def xorBase64 (svc : BooleanService) (lhs rhs : String) (s : St) :
    Except Err String × St :=
  binaryOp (serverKeyXor svc.server) lhs rhs s

/-- NotBase64 (service.go): deserialize, NOT gate, serialize, with deferred
Closes on every path. -/
def notBase64 (svc : BooleanService) (input : String) (s : St) :
    Except Err String × St :=
  match svcDeserialize input s with
  | (.error e, s) => (.error e, s)
  | (.ok (ct, i), s) =>
    match serverKeyNot svc.server ct with
    | .error e => (.error e, s.rel i)
    | .ok outCt =>
      let (oi, s) := s.alloc
      match serializeToBase64 outCt with
      | .error e => (.error e, (s.rel oi).rel i)
      | .ok str => (.ok str, (s.rel oi).rel i)

/-- EncryptBoolToBase64 (service.go). -/
def encryptBoolToBase64 (svc : BooleanService) (value : Bool) (s : St) :
    Except Err String × St :=
  match encryptBool svc.client value with
  | .error e => (.error e, s)
  | .ok ct =>
    let (i, s) := s.alloc
    match serializeToBase64 ct with
    | .error e => (.error e, s.rel i)
    | .ok str => (.ok str, s.rel i)

/-- DecryptBoolFromBase64 (service.go). -/
def decryptBoolFromBase64 (svc : BooleanService) (ctBase64 : String) (s : St) :
    Except Err Bool × St :=
  match svcDeserialize ctBase64 s with
  | (.error e, s) => (.error e, s)
  | (.ok (ct, i), s) => (decryptBool svc.client ct, s.rel i)

/-! ## Integer family: process-wide world

The integer service's keys live in mutable pointer cells; the service's
`server` field and the process-wide holder `defaultUint8ServerKeyHolder`
alias the same Uint8ServerKey struct, so clearing the struct's pointer is
visible through the holder. -/

/-- The pointer cells of one integer service's keys, the service's field
references, and the process-wide ambient key holder. -/
structure U8World where
  clientPtr : Option Unit
  serverPtr : Option Nat
  publicPtr : Option Unit
  svcClient : Bool
  svcServer : Bool
  svcPublic : Bool
  holderSet : Bool
deriving DecidableEq

/-- NewUint8Service (service.go) via GenerateUint8Keys and
NewUint8PublicKey (part_000): live client/server/public keys, the server
key (identity `n`) registered as the process-wide holder through
setServerKeyHolder. -/
def newUint8Service (n : Nat) : U8World :=
  ⟨some (), some n, some (), true, true, true, true⟩

/-- defaultUint8ServerKey (part_000): the holder's current key handle; nil
when the holder was never set. -/
def defaultUint8ServerKey (w : U8World) : GoRef Nat :=
  if w.holderSet then some ⟨w.serverPtr⟩ else none

/-- The service's client-key reference. -/
def u8clientRef (w : U8World) : GoRef Unit :=
  if w.svcClient then some ⟨w.clientPtr⟩ else none

/-- The service's server-key reference (the same struct the holder sees). -/
def u8serverRef (w : U8World) : GoRef Nat :=
  if w.svcServer then some ⟨w.serverPtr⟩ else none

/-- The service's public-key reference. -/
def u8publicRef (w : U8World) : GoRef Unit :=
  if w.svcPublic then some ⟨w.publicPtr⟩ else none

/-- Uint8ServerKey.Close (part_000) run on the service's server key through
the world: drops the thread-local registration (status ignored) and on
destroy success clears the shared pointer cell. -/
def uint8ServerKeyCloseW (unsetCode sd : Int) (w : U8World) :
    Option Err × U8World :=
  match w.serverPtr with
  | none => (none, w)
  | some _ =>
    let _ := checkMsg ("unset server key") unsetCode
    if sd ≠ 0 then (some (checkMsg ("destroy server key") sd), w)
    else (none, { w with serverPtr := none })

/-- Uint8Service.Close (service.go): closes public, client, and server keys
in that order, keeping the first error and dropping the service's field
references; the holder keeps pointing at the (now cleared) server key
struct. `pd`, `cd`, `sd` are the engine destroy statuses. -/
def uint8ServiceClose (pd cd sd : Int) (w : U8World) : Option Err × U8World :=
  let p :=
    if w.svcPublic then
      match w.publicPtr with
      | none => ((none : Option Err), (none : Option Unit))
      | some u =>
        if pd ≠ 0 then (some (checkMsg ("destroy public key") pd), some u)
        else (none, none)
    else (none, w.publicPtr)
  let c :=
    if w.svcClient then
      match w.clientPtr with
      | none => ((none : Option Err), (none : Option Unit))
      | some u =>
        if cd ≠ 0 then (some (checkMsg ("destroy client key") cd), some u)
        else (none, none)
    else (none, w.clientPtr)
  let sv :=
    if w.svcServer then
      match w.serverPtr with
      | none => ((none : Option Err), (none : Option Nat))
      | some n =>
        if sd ≠ 0 then (some (checkMsg ("destroy server key") sd), some n)
        else (none, none)
    else (none, w.serverPtr)
  ((p.1.orElse (fun _ => c.1)).orElse (fun _ => sv.1),
   ⟨c.2, sv.2, p.2, false, false, false, w.holderSet⟩)

/-! ## service.go: integer service operations -/

/-- deserializeUint8 (service.go). -/
def svcDeserializeU8 (ctBase64 : String) (s : St) :
    Except Err (GoRef (Fin 256) × Nat) × St :=
  if ctBase64 = "" then (.error ("ciphertext is empty"), s)
  else match b64Decode ctBase64 with
    | none => (.error ("illegal base64 data"), s)
    | some raw =>
      match uint8Deserialize raw with
      | .error e => (.error e, s)
      | .ok ct =>
        let (i, s) := s.alloc
        (.ok (ct, i), s)

/-- serializeUint8ToBase64 (service.go). -/
def serializeUint8ToBase64 (ct : GoRef (Fin 256)) : Except Err String :=
  (uint8Serialize ct).map b64Encode

/-- binaryUint8 (service.go): deserialize both operands, run the ambient-key
operation (whose lock/bind/unbind/unlock events join the trace), serialize;
deferred Closes fire in LIFO order on every exit path. -/
def binaryUint8
    (op : GoRef (Fin 256) → GoRef (Fin 256) → Except Err (GoRef (Fin 256)) × List Ev)
    (lhsB rhsB : String) (s : St) : Except Err String × St :=
  match svcDeserializeU8 lhsB s with
  | (.error e, s) => (.error e, s)
  | (.ok (lct, li), s) =>
    match svcDeserializeU8 rhsB s with
    | (.error e, s) => (.error e, s.rel li)
    | (.ok (rct, ri), s) =>
      let pr := op lct rct
      let s := s.app pr.2
      match pr.1 with
      | .error e => (.error e, (s.rel ri).rel li)
      | .ok outCt =>
        let (oi, s) := s.alloc
        match serializeUint8ToBase64 outCt with
        | .error e => (.error e, ((s.rel oi).rel ri).rel li)
        | .ok str => (.ok str, ((s.rel oi).rel ri).rel li)

/-- Uint8Service.Add (service.go). -/
def svcAdd (setCode opCode : Int) (w : U8World) (lhs rhs : String) (s : St) :
    Except Err String × St :=
  binaryUint8 (uint8Add setCode opCode (defaultUint8ServerKey w)) lhs rhs s

/-- Uint8Service.BitAnd (service.go). -/
def svcBitAnd (setCode opCode : Int) (w : U8World) (lhs rhs : String) (s : St) :
    Except Err String × St :=
  binaryUint8 (uint8BitAnd setCode opCode (defaultUint8ServerKey w)) lhs rhs s

/-- Uint8Service.BitXor (service.go). -/
def svcBitXor (setCode opCode : Int) (w : U8World) (lhs rhs : String) (s : St) :
    Except Err String × St :=
  binaryUint8 (uint8BitXor setCode opCode (defaultUint8ServerKey w)) lhs rhs s

/-- Uint8Service.Encrypt (service.go). -/
def svcEncrypt (w : U8World) (value : Fin 256) (s : St) :
    Except Err String × St :=
  match encryptUint8 (u8clientRef w) value with
  | .error e => (.error e, s)
  | .ok ct =>
    let (i, s) := s.alloc
    match serializeUint8ToBase64 ct with
    | .error e => (.error e, s.rel i)
    | .ok str => (.ok str, s.rel i)

/-- Uint8Service.EncryptWithPublic (service.go). -/
def svcEncryptWithPublic (w : U8World) (value : Fin 256) (s : St) :
    Except Err String × St :=
  match encryptUint8Public (u8publicRef w) value with
  | .error e => (.error e, s)
  | .ok ct =>
    let (i, s) := s.alloc
    match serializeUint8ToBase64 ct with
    | .error e => (.error e, s.rel i)
    | .ok str => (.ok str, s.rel i)

/-- Uint8Service.Decrypt (service.go). -/
def svcDecrypt (w : U8World) (ctBase64 : String) (s : St) :
    Except Err (Fin 256) × St :=
  match svcDeserializeU8 ctBase64 s with
  | (.error e, s) => (.error e, s)
  | (.ok (ct, i), s) => (decryptUint8 (u8clientRef w) ct, s.rel i)

/-! ## Trace properties -/

/-- Ids of handles created in a trace. -/
def allocIds (evs : List Ev) : List Nat :=
  evs.filterMap (fun e => match e with | .alloc i => some i | _ => none)

/-- Ids of handles released in a trace. -/
def releaseIds (evs : List Ev) : List Nat :=
  evs.filterMap (fun e => match e with | .release i => some i | _ => none)

/-- A trace is balanced when the handles created are exactly the handles
released, as multisets. -/
abbrev balanced (evs : List Ev) : Prop := (allocIds evs).Perm (releaseIds evs)

/-- Every successful ambient-key registration in the trace is followed by a
deregistration, and every lane unpin comes only after that
deregistration. -/
def unbindScoped (evs : List Ev) : Prop :=
  ∀ (i k : Nat), evs[i]? = some (Ev.setKey k) →
    ∃ (j : Nat), i < j ∧ evs[j]? = some (Ev.unsetKey) ∧
      ∀ (l : Nat), evs[l]? = some (Ev.unlockThread) → j < l

/-- Decidable equality of call results. -/
instance {ε α : Type} [DecidableEq ε] [DecidableEq α] : DecidableEq (Except ε α) :=
  fun a b =>
    match a, b with
    | .error x, .error y =>
      if h : x = y then .isTrue (h ▸ rfl)
      else .isFalse (fun hc => h (Except.error.inj hc))
    | .ok x, .ok y =>
      if h : x = y then .isTrue (h ▸ rfl)
      else .isFalse (fun hc => h (Except.ok.inj hc))
    | .error _, .ok _ => .isFalse (fun hc => Except.noConfusion hc)
    | .ok _, .error _ => .isFalse (fun hc => Except.noConfusion hc)

/-! ## Helper lemmas -/

set_option maxRecDepth 8000

/-- Deserializing the engine encoding of a boolean ciphertext reconstructs
the ciphertext. -/
theorem deser_ser_bool : ∀ b : Bool, deserializeCiphertext (boolSerE b) = .ok (mkRef b) := by
  decide

/-- Deserializing the engine encoding of an integer ciphertext reconstructs
the ciphertext. -/
theorem deser_ser_u8 : ∀ v : Fin 256, uint8Deserialize (u8SerE v) = .ok (mkRef v) := by
  decide

/-- Base64 round-trip on single-byte payloads. -/
theorem b64_roundtrip_byte : ∀ v : Fin 256, b64Decode (b64Encode [v.val]) = some [v.val] := by
  decide

/-- Encodings of single-byte payloads are nonempty strings. -/
theorem b64_encode_byte_ne : ∀ v : Fin 256, ¬ (b64Encode [v.val] = "") := by
  decide

/-- Deserializing a single-byte ciphertext encoding succeeds. -/
theorem u8Deser_byte : ∀ v : Fin 256, uint8Deserialize [v.val] = .ok (mkRef v) := by
  decide

/-! ## Claim theorems -/

/-- C1: for every valid ciphertext of either family, deserializing the bytes
produced by serializing it yields a handle that decrypts, with any client
key, to the same result as the original ciphertext. -/
theorem serialize_roundtrip_semantic :
    ∀ (b : Bool) (v : Fin 256) (ck uck : GoRef Unit),
      ((ctSerialize (mkRef b)).bind fun bs =>
        (deserializeCiphertext bs).bind fun ct => decryptBool ck ct)
        = decryptBool ck (mkRef b) ∧
      ((uint8Serialize (mkRef v)).bind fun bs =>
        (uint8Deserialize bs).bind fun ct => decryptUint8 uck ct)
        = decryptUint8 uck (mkRef v) := by
  intro b v ck uck
  constructor
  · show (deserializeCiphertext (boolSerE b)).bind (fun ct => decryptBool ck ct)
      = decryptBool ck (mkRef b)
    rw [deser_ser_bool b]
    rfl
  · show (uint8Deserialize (u8SerE v)).bind (fun ct => decryptUint8 uck ct)
      = decryptUint8 uck (mkRef v)
    rw [deser_ser_u8 v]
    rfl

/-- C3: boolean gate truth tables hold through the full service pipeline:
encrypt both operands, apply the homomorphic gate on the base64 transport
form, decrypt; AND, OR, XOR and NOT agree with the plaintext operators. -/
theorem boolean_gate_truth_tables :
    ∀ a b : Bool,
      ((encryptBoolToBase64 newBooleanService a st0).1.bind fun sa =>
       (encryptBoolToBase64 newBooleanService b st0).1.bind fun sb =>
       (andBase64 newBooleanService sa sb st0).1.bind fun sc =>
       (decryptBoolFromBase64 newBooleanService sc st0).1) = .ok (a && b) ∧
      ((encryptBoolToBase64 newBooleanService a st0).1.bind fun sa =>
       (encryptBoolToBase64 newBooleanService b st0).1.bind fun sb =>
       (orBase64 newBooleanService sa sb st0).1.bind fun sc =>
       (decryptBoolFromBase64 newBooleanService sc st0).1) = .ok (a || b) ∧
      ((encryptBoolToBase64 newBooleanService a st0).1.bind fun sa =>
       (encryptBoolToBase64 newBooleanService b st0).1.bind fun sb =>
       (xorBase64 newBooleanService sa sb st0).1.bind fun sc =>
       (decryptBoolFromBase64 newBooleanService sc st0).1) = .ok (xor a b) ∧
      ((encryptBoolToBase64 newBooleanService a st0).1.bind fun sa =>
       (notBase64 newBooleanService sa st0).1.bind fun sc =>
       (decryptBoolFromBase64 newBooleanService sc st0).1) = .ok (!a) := by
  decide

/-- C8: deserialization of empty input and of structurally invalid input
fails with a codec error and returns rather than panicking, at the service
boundary (empty string, non-base64 text) and at the byte level (empty
bytes, bytes the engine rejects); in particular decrypt of both bad inputs
fails in both families. -/
theorem invalid_input_codec_errors :
    (decryptBoolFromBase64 newBooleanService ("") st0).1
      = .error ("ciphertext is empty") ∧
    (decryptBoolFromBase64 newBooleanService ("not-base64-or-empty-bytes") st0).1
      = .error ("illegal base64 data") ∧
    (svcDecrypt (newUint8Service 0) ("") st0).1
      = .error ("ciphertext is empty") ∧
    (svcDecrypt (newUint8Service 0) ("not-base64-or-empty-bytes") st0).1
      = .error ("illegal base64 data") ∧
    deserializeCiphertext [] = .error ("ciphertext data is empty") ∧
    uint8Deserialize [] = .error ("ciphertext data is empty") ∧
    deserializeCiphertext [5] = .error (checkMsg ("deserialize ciphertext") 1) := by
  decide

/-- C10: after Uint8Service.Close (or closing the server key alone), the
process-wide holder still references the key struct but its pointer is
cleared, so Add, BitAnd and BitXor on the closed service all fail with the
server-key-is-nil error instead of crashing. -/
theorem closed_service_binops_fail (n : Nat) (sc oc : Int) (a b : Fin 256) :
    (uint8ServiceClose 0 0 0 (newUint8Service n)).1 = none ∧
    (uint8ServiceClose 0 0 0 (newUint8Service n)).2.holderSet = true ∧
    (uint8ServiceClose 0 0 0 (newUint8Service n)).2.serverPtr = none ∧
    (uint8Add sc oc
      (defaultUint8ServerKey (uint8ServiceClose 0 0 0 (newUint8Service n)).2)
      (mkRef a) (mkRef b)).1 = .error ("server key is nil") ∧
    (uint8BitAnd sc oc
      (defaultUint8ServerKey (uint8ServiceClose 0 0 0 (newUint8Service n)).2)
      (mkRef a) (mkRef b)).1 = .error ("server key is nil") ∧
    (uint8BitXor sc oc
      (defaultUint8ServerKey (uint8ServiceClose 0 0 0 (newUint8Service n)).2)
      (mkRef a) (mkRef b)).1 = .error ("server key is nil") ∧
    (uint8Add sc oc
      (defaultUint8ServerKey (uint8ServerKeyCloseW 0 0 (newUint8Service n)).2)
      (mkRef a) (mkRef b)).1 = .error ("server key is nil") := by
  exact ⟨rfl, rfl, rfl, rfl, rfl, rfl, rfl⟩

/-- C6: for every handle type of both families, Close on a nil or
already-released handle is a no-op returning no error, and a handle whose
Close succeeded can be closed again without error (second Close is a
no-op), whatever the engine destroy statuses. -/
theorem close_idempotent (uc uc2 d d2 : Int) :
    (clientKeyClose d none = .ok none ∧
     clientKeyClose d (some ⟨none⟩) = .ok (some ⟨none⟩) ∧
     ∀ r r', clientKeyClose d r = .ok r' → clientKeyClose d2 r' = .ok r') ∧
    (serverKeyClose d none = .ok none ∧
     serverKeyClose d (some ⟨none⟩) = .ok (some ⟨none⟩) ∧
     ∀ r r', serverKeyClose d r = .ok r' → serverKeyClose d2 r' = .ok r') ∧
    (ciphertextClose d none = .ok none ∧
     ciphertextClose d (some ⟨none⟩) = .ok (some ⟨none⟩) ∧
     ∀ r r', ciphertextClose d r = .ok r' → ciphertextClose d2 r' = .ok r') ∧
    (uint8ClientKeyClose d none = .ok none ∧
     uint8ClientKeyClose d (some ⟨none⟩) = .ok (some ⟨none⟩) ∧
     ∀ r r', uint8ClientKeyClose d r = .ok r' →
       uint8ClientKeyClose d2 r' = .ok r') ∧
    (uint8ServerKeyClose uc d none = .ok none ∧
     uint8ServerKeyClose uc d (some ⟨none⟩) = .ok (some ⟨none⟩) ∧
     ∀ r r', uint8ServerKeyClose uc d r = .ok r' →
       uint8ServerKeyClose uc2 d2 r' = .ok r') ∧
    (uint8PublicKeyClose d none = .ok none ∧
     uint8PublicKeyClose d (some ⟨none⟩) = .ok (some ⟨none⟩) ∧
     ∀ r r', uint8PublicKeyClose d r = .ok r' →
       uint8PublicKeyClose d2 r' = .ok r') ∧
    (uint8CtClose d none = .ok none ∧
     uint8CtClose d (some ⟨none⟩) = .ok (some ⟨none⟩) ∧
     ∀ r r', uint8CtClose d r = .ok r' → uint8CtClose d2 r' = .ok r') := by
  refine ⟨⟨rfl, rfl, ?_⟩, ⟨rfl, rfl, ?_⟩, ⟨rfl, rfl, ?_⟩, ⟨rfl, rfl, ?_⟩,
    ⟨rfl, rfl, ?_⟩, ⟨rfl, rfl, ?_⟩, ⟨rfl, rfl, ?_⟩⟩ <;>
  · intro r r' h
    rcases r with _ | ⟨_ | u⟩
    · cases h
      rfl
    · cases h
      rfl
    · simp only [clientKeyClose, serverKeyClose, ciphertextClose,
        uint8ClientKeyClose, uint8ServerKeyClose, uint8PublicKeyClose,
        uint8CtClose] at h
      split at h
      · cases h
      · cases h
        rfl

/-- C6 witness: a concrete handle closed successfully closes again with no
error. -/
theorem close_idempotent_witness :
    uint8CtClose 0 (mkRef 3) = .ok (some ⟨none⟩) ∧
    uint8CtClose 0 (some ⟨none⟩) = .ok (some ⟨none⟩) :=
  ⟨by decide, (close_idempotent 0 0 0 0).2.2.2.2.2.2.2.2 (mkRef 3) (some ⟨none⟩)
    (by decide)⟩

/-- C7: every operation handed a nil (released or never created) key or
ciphertext handle fails fast with a descriptive error value: encrypt,
decrypt, all homomorphic gates, public-key derivation, serialization and
ambient context binding, in both families. -/
theorem nil_handle_ops_fail (v : Bool) (u x y : Fin 256) (sc : Int)
    (fn : Except Err Unit) :
    encryptBool none v = .error ("client key is nil") ∧
    encryptBool (some ⟨none⟩) v = .error ("client key is nil") ∧
    (∀ ct, decryptBool none ct = .error ("client key is nil")) ∧
    decryptBool (mkRef ()) none = .error ("ciphertext is nil") ∧
    decryptBool (mkRef ()) (some ⟨none⟩) = .error ("ciphertext is nil") ∧
    (∀ l r, serverKeyAnd none l r = .error ("server key is nil")) ∧
    (∀ r, serverKeyAnd (mkRef ()) none r = .error ("ciphertext is nil")) ∧
    serverKeyAnd (mkRef ()) (mkRef v) none = .error ("ciphertext is nil") ∧
    (∀ l r, serverKeyOr none l r = .error ("server key is nil")) ∧
    (∀ r, serverKeyOr (mkRef ()) none r = .error ("ciphertext is nil")) ∧
    serverKeyOr (mkRef ()) (mkRef v) none = .error ("ciphertext is nil") ∧
    (∀ l r, serverKeyXor none l r = .error ("server key is nil")) ∧
    (∀ r, serverKeyXor (mkRef ()) none r = .error ("ciphertext is nil")) ∧
    serverKeyXor (mkRef ()) (mkRef v) none = .error ("ciphertext is nil") ∧
    (∀ i, serverKeyNot none i = .error ("server key is nil")) ∧
    serverKeyNot (mkRef ()) none = .error ("ciphertext is nil") ∧
    ctSerialize none = .error ("ciphertext is nil") ∧
    ctSerialize (some ⟨none⟩) = .error ("ciphertext is nil") ∧
    encryptUint8 none u = .error ("client key is nil") ∧
    encryptUint8 (some ⟨none⟩) u = .error ("client key is nil") ∧
    encryptUint8Public none u = .error ("public key is nil") ∧
    encryptUint8Public (some ⟨none⟩) u = .error ("public key is nil") ∧
    decryptUint8 none (mkRef u) = .error ("client key is nil") ∧
    decryptUint8 (mkRef ()) none = .error ("ciphertext is nil") ∧
    decryptUint8 (mkRef ()) (some ⟨none⟩) = .error ("ciphertext is nil") ∧
    uint8Serialize none = .error ("ciphertext is nil") ∧
    uint8Serialize (some ⟨none⟩) = .error ("ciphertext is nil") ∧
    newUint8PublicKey none = .error ("client key is nil") ∧
    newUint8PublicKey (some ⟨none⟩) = .error ("client key is nil") ∧
    (withServerKey sc none fn).1 = .error ("server key is nil") ∧
    (withServerKey sc (some ⟨none⟩) fn).1 = .error ("server key is nil") ∧
    (∀ oc g r, (uint8Add sc oc g none r).1 = .error ("ciphertext is nil")) ∧
    (∀ oc g, (uint8Add sc oc g (mkRef x) none).1
      = .error ("ciphertext is nil")) ∧
    (∀ oc, (uint8Add sc oc none (mkRef x) (mkRef y)).1
      = .error ("server key is nil")) ∧
    (∀ oc, (uint8Add sc oc (some ⟨none⟩) (mkRef x) (mkRef y)).1
      = .error ("server key is nil")) ∧
    (∀ oc, (uint8BitAnd sc oc none (mkRef x) (mkRef y)).1
      = .error ("server key is nil")) ∧
    (∀ oc, (uint8BitXor sc oc none (mkRef x) (mkRef y)).1
      = .error ("server key is nil")) :=
  ⟨rfl, rfl, fun _ => rfl, rfl, rfl,
   fun _ _ => rfl, fun _ => rfl, rfl,
   fun _ _ => rfl, fun _ => rfl, rfl,
   fun _ _ => rfl, fun _ => rfl, rfl,
   fun _ => rfl, rfl, rfl, rfl,
   rfl, rfl, rfl, rfl, rfl, rfl, rfl, rfl, rfl, rfl, rfl, rfl, rfl,
   fun _ _ _ => rfl, fun _ _ => rfl, fun _ => rfl, fun _ => rfl,
   fun _ => rfl, fun _ => rfl⟩

/-- Service-layer deserialization of an encoded single byte succeeds and
records one fresh handle. -/
theorem svcDeserializeU8_enc (v : Fin 256) (s : St) :
    svcDeserializeU8 (b64Encode [v.val]) s
      = (.ok (mkRef v, s.nextId), ⟨s.nextId + 1, s.evs ++ [Ev.alloc s.nextId]⟩) := by
  unfold svcDeserializeU8
  rw [if_neg (b64_encode_byte_ne v), b64_roundtrip_byte v]
  simp only [u8Deser_byte v, St.alloc]

/-- Uint8Service.Add on encoded operands yields the encoded wrapped sum. -/
theorem svcAdd_enc (n : Nat) (a b : Fin 256) :
    (svcAdd 0 0 (newUint8Service n) (b64Encode [a.val]) (b64Encode [b.val]) st0).1
      = .ok (b64Encode [(u8addE a b).val]) := by
  unfold svcAdd binaryUint8
  simp only [svcDeserializeU8_enc]
  rfl

/-- Uint8Service.BitAnd on encoded operands yields the encoded bitwise
AND. -/
theorem svcBitAnd_enc (n : Nat) (a b : Fin 256) :
    (svcBitAnd 0 0 (newUint8Service n) (b64Encode [a.val]) (b64Encode [b.val]) st0).1
      = .ok (b64Encode [(u8landE a b).val]) := by
  unfold svcBitAnd binaryUint8
  simp only [svcDeserializeU8_enc]
  rfl

/-- Uint8Service.BitXor on encoded operands yields the encoded bitwise
XOR. -/
theorem svcBitXor_enc (n : Nat) (a b : Fin 256) :
    (svcBitXor 0 0 (newUint8Service n) (b64Encode [a.val]) (b64Encode [b.val]) st0).1
      = .ok (b64Encode [(u8xorE a b).val]) := by
  unfold svcBitXor binaryUint8
  simp only [svcDeserializeU8_enc]
  rfl

/-- Uint8Service.Decrypt of an encoded byte returns that byte. -/
theorem svcDecrypt_enc (n : Nat) (v : Fin 256) :
    (svcDecrypt (newUint8Service n) (b64Encode [v.val]) st0).1 = .ok v := by
  unfold svcDecrypt
  rw [svcDeserializeU8_enc v]
  rfl

/-- C2: integer homomorphic arithmetic through the full service pipeline:
encrypting a and b, applying Add / BitAnd / BitXor on the transport form
and decrypting yields (a + b) mod 256, a AND b, and a XOR b respectively,
under native bitwise semantics. -/
theorem uint8_service_arith (a b : Fin 256) (n : Nat) :
    (((svcEncrypt (newUint8Service n) a st0).1.bind fun sa =>
      (svcEncrypt (newUint8Service n) b st0).1.bind fun sb =>
      (svcAdd 0 0 (newUint8Service n) sa sb st0).1.bind fun sc =>
      ((svcDecrypt (newUint8Service n) sc st0).1.map Fin.val))
        = .ok ((a.val + b.val) % 256)) ∧
    (((svcEncrypt (newUint8Service n) a st0).1.bind fun sa =>
      (svcEncrypt (newUint8Service n) b st0).1.bind fun sb =>
      (svcBitAnd 0 0 (newUint8Service n) sa sb st0).1.bind fun sc =>
      ((svcDecrypt (newUint8Service n) sc st0).1.map Fin.val))
        = .ok (a.val &&& b.val)) ∧
    (((svcEncrypt (newUint8Service n) a st0).1.bind fun sa =>
      (svcEncrypt (newUint8Service n) b st0).1.bind fun sb =>
      (svcBitXor 0 0 (newUint8Service n) sa sb st0).1.bind fun sc =>
      ((svcDecrypt (newUint8Service n) sc st0).1.map Fin.val))
        = .ok (a.val ^^^ b.val)) := by
  refine ⟨?_, ?_, ?_⟩
  · show ((svcAdd 0 0 (newUint8Service n) (b64Encode [a.val]) (b64Encode [b.val]) st0).1.bind
      fun sc => ((svcDecrypt (newUint8Service n) sc st0).1.map Fin.val)) = _
    rw [svcAdd_enc n a b]
    show (svcDecrypt (newUint8Service n) (b64Encode [(u8addE a b).val]) st0).1.map Fin.val = _
    rw [svcDecrypt_enc n (u8addE a b)]
    show Except.ok (u8addE a b).val = _
    rw [show (u8addE a b).val = (a.val + b.val) % 256 from Fin.val_add a b]
  · show ((svcBitAnd 0 0 (newUint8Service n) (b64Encode [a.val]) (b64Encode [b.val]) st0).1.bind
      fun sc => ((svcDecrypt (newUint8Service n) sc st0).1.map Fin.val)) = _
    rw [svcBitAnd_enc n a b]
    show (svcDecrypt (newUint8Service n) (b64Encode [(u8landE a b).val]) st0).1.map Fin.val = _
    rw [svcDecrypt_enc n (u8landE a b)]
    rfl
  · show ((svcBitXor 0 0 (newUint8Service n) (b64Encode [a.val]) (b64Encode [b.val]) st0).1.bind
      fun sc => ((svcDecrypt (newUint8Service n) sc st0).1.map Fin.val)) = _
    rw [svcBitXor_enc n a b]
    show (svcDecrypt (newUint8Service n) (b64Encode [(u8xorE a b).val]) st0).1.map Fin.val = _
    rw [svcDecrypt_enc n (u8xorE a b)]
    rfl

/-- Trace characterization of withServerKey: nothing on a nil key, pin and
unpin only when registration fails, and the full pinned bind/unbind scope
otherwise. -/
theorem withServerKey_trace {α : Type} (sc : Int) (sk : GoRef Nat)
    (fn : Except Err α) :
    (withServerKey sc sk fn).2 = [] ∨
    (withServerKey sc sk fn).2 = [Ev.lockThread, Ev.unlockThread] ∨
    ∃ n : Nat, (withServerKey sc sk fn).2
      = [Ev.lockThread, Ev.setKey n, Ev.unsetKey, Ev.unlockThread] := by
  unfold withServerKey
  split
  · exact Or.inl rfl
  · split
    · exact Or.inr (Or.inl rfl)
    · exact Or.inr (Or.inr ⟨_, rfl⟩)

/-- The empty trace is unbind-scoped. -/
theorem unbindScoped_nil : unbindScoped ([] : List Ev) := by
  intro i k hik
  simp at hik

/-- A pin/unpin trace with no registration is unbind-scoped. -/
theorem unbindScoped_lockOnly : unbindScoped [Ev.lockThread, Ev.unlockThread] := by
  intro i k hik
  rcases i with _ | _ | i <;> simp_all

/-- The full scope trace is unbind-scoped. -/
theorem unbindScoped_core (n : Nat) :
    unbindScoped [Ev.lockThread, Ev.setKey n, Ev.unsetKey, Ev.unlockThread] := by
  intro i k hik
  have hi : i = 1 := by
    rcases i with _ | _ | _ | _ | i <;> simp_all
  subst hi
  refine ⟨2, by omega, rfl, ?_⟩
  intro l hl
  rcases l with _ | _ | _ | _ | l <;> simp_all

/-- Every withServerKey trace is unbind-scoped. -/
theorem withServerKey_unbindScoped {α : Type} (sc : Int) (sk : GoRef Nat)
    (fn : Except Err α) : unbindScoped (withServerKey sc sk fn).2 := by
  rcases withServerKey_trace sc sk fn with h | h | ⟨n, h⟩ <;> rw [h]
  · exact unbindScoped_nil
  · exact unbindScoped_lockOnly
  · exact unbindScoped_core n

/-- C4: for every integer binary operation (add, bitAnd, bitXor), whenever
the ambient server key is successfully bound, the deregistration executes
before the operation returns on every path, including when the homomorphic
primitive fails, and the lane is unpinned only after the ambient key is
deregistered. -/
theorem integer_binop_unbind_scoped (sc oc : Int) (glob : GoRef Nat)
    (lhs rhs : GoRef (Fin 256)) :
    unbindScoped (uint8Add sc oc glob lhs rhs).2 ∧
    unbindScoped (uint8BitAnd sc oc glob lhs rhs).2 ∧
    unbindScoped (uint8BitXor sc oc glob lhs rhs).2 := by
  refine ⟨?_, ?_, ?_⟩
  · unfold uint8Add
    split
    · exact withServerKey_unbindScoped sc glob _
    · exact unbindScoped_nil
  · unfold uint8BitAnd
    split
    · exact withServerKey_unbindScoped sc glob _
    · exact unbindScoped_nil
  · unfold uint8BitXor
    split
    · exact withServerKey_unbindScoped sc glob _
    · exact unbindScoped_nil

/-- The only key identity a withServerKey scope over a live key ever
registers is that key. -/
theorem withServerKey_setKey_mem {α : Type} (sc : Int) (m k : Nat)
    (fn : Except Err α)
    (hm : Ev.setKey k ∈ (withServerKey sc (mkRef m) fn).2) : k = m := by
  unfold withServerKey at hm
  rw [show refVal (mkRef m) = some m from rfl] at hm
  by_cases hsc : sc ≠ 0
  · simp [hsc] at hm
  · simp [hsc] at hm
    exact hm

/-- C5: the integer service's binary operations bind exactly the server key
registered in the process-wide holder at service construction, which is the
service's own server key, and no other; the operations accept no
caller-supplied key, so any key identity appearing as a bind event equals
the construction key. -/
theorem ambient_key_is_construction_key (n : Nat) (sc oc : Int)
    (lhs rhs : GoRef (Fin 256)) (k : Nat) :
    defaultUint8ServerKey (newUint8Service n) = u8serverRef (newUint8Service n) ∧
    (Ev.setKey k ∈ (uint8Add sc oc (defaultUint8ServerKey (newUint8Service n))
      lhs rhs).2 → k = n) ∧
    (Ev.setKey k ∈ (uint8BitAnd sc oc (defaultUint8ServerKey (newUint8Service n))
      lhs rhs).2 → k = n) ∧
    (Ev.setKey k ∈ (uint8BitXor sc oc (defaultUint8ServerKey (newUint8Service n))
      lhs rhs).2 → k = n) := by
  refine ⟨rfl, ?_, ?_, ?_⟩
  · intro hm
    unfold uint8Add at hm
    split at hm
    · exact withServerKey_setKey_mem sc n k _ hm
    · simp at hm
  · intro hm
    unfold uint8BitAnd at hm
    split at hm
    · exact withServerKey_setKey_mem sc n k _ hm
    · simp at hm
  · intro hm
    unfold uint8BitXor at hm
    split at hm
    · exact withServerKey_setKey_mem sc n k _ hm
    · simp at hm

/-- C5 witness: a concrete Add run binds key 7, the key its service was
constructed with. -/
theorem ambient_key_witness :
    Ev.setKey 7 ∈ (uint8Add 0 0 (defaultUint8ServerKey (newUint8Service 7))
      (mkRef 1) (mkRef 2)).2 ∧ (7 : Nat) = 7 :=
  ⟨by decide, (ambient_key_is_construction_key 7 0 0 (mkRef 1) (mkRef 2) 7).2.1
    (by decide)⟩

/-- Service-layer boolean deserialization either fails leaving the state
untouched or succeeds returning the fresh handle id and recording its
creation. -/
theorem svcDeserialize_cases (bs : String) (s : St) :
    (∃ e, svcDeserialize bs s = (.error e, s)) ∨
    (∃ ct, svcDeserialize bs s
      = (.ok (ct, s.nextId), ⟨s.nextId + 1, s.evs ++ [Ev.alloc s.nextId]⟩)) := by
  unfold svcDeserialize St.alloc
  split
  · exact Or.inl ⟨_, rfl⟩
  · split
    · exact Or.inl ⟨_, rfl⟩
    · split
      · exact Or.inl ⟨_, rfl⟩
      · exact Or.inr ⟨_, rfl⟩

/-- Service-layer integer deserialization, same shape. -/
theorem svcDeserializeU8_cases (bs : String) (s : St) :
    (∃ e, svcDeserializeU8 bs s = (.error e, s)) ∨
    (∃ ct, svcDeserializeU8 bs s
      = (.ok (ct, s.nextId), ⟨s.nextId + 1, s.evs ++ [Ev.alloc s.nextId]⟩)) := by
  unfold svcDeserializeU8 St.alloc
  split
  · exact Or.inl ⟨_, rfl⟩
  · split
    · exact Or.inl ⟨_, rfl⟩
    · split
      · exact Or.inl ⟨_, rfl⟩
      · exact Or.inr ⟨_, rfl⟩

/-- Result and trace shapes of Uint8Add: nil operand or nil key with empty
trace, failed registration with a pin/unpin pair, or a full scope with the
primitive failing or succeeding. -/
theorem uint8Add_cases (sc oc : Int) (g : GoRef Nat) (lct rct : GoRef (Fin 256)) :
    (∃ e, uint8Add sc oc g lct rct = (.error e, [])) ∨
    (∃ e, uint8Add sc oc g lct rct
      = (.error e, [Ev.lockThread, Ev.unlockThread])) ∨
    (∃ e n, uint8Add sc oc g lct rct
      = (.error e, [Ev.lockThread, Ev.setKey n, Ev.unsetKey, Ev.unlockThread])) ∨
    (∃ ct n, uint8Add sc oc g lct rct
      = (.ok ct, [Ev.lockThread, Ev.setKey n, Ev.unsetKey, Ev.unlockThread])) := by
  unfold uint8Add withServerKey
  split
  · split
    · exact Or.inl ⟨_, rfl⟩
    · split
      · exact Or.inr (Or.inl ⟨_, rfl⟩)
      · split
        · exact Or.inr (Or.inr (Or.inl ⟨_, _, rfl⟩))
        · exact Or.inr (Or.inr (Or.inr ⟨_, _, rfl⟩))
  · exact Or.inl ⟨_, rfl⟩

/-- Result and trace shapes of Uint8BitAnd. -/
theorem uint8BitAnd_cases (sc oc : Int) (g : GoRef Nat) (lct rct : GoRef (Fin 256)) :
    (∃ e, uint8BitAnd sc oc g lct rct = (.error e, [])) ∨
    (∃ e, uint8BitAnd sc oc g lct rct
      = (.error e, [Ev.lockThread, Ev.unlockThread])) ∨
    (∃ e n, uint8BitAnd sc oc g lct rct
      = (.error e, [Ev.lockThread, Ev.setKey n, Ev.unsetKey, Ev.unlockThread])) ∨
    (∃ ct n, uint8BitAnd sc oc g lct rct
      = (.ok ct, [Ev.lockThread, Ev.setKey n, Ev.unsetKey, Ev.unlockThread])) := by
  unfold uint8BitAnd withServerKey
  split
  · split
    · exact Or.inl ⟨_, rfl⟩
    · split
      · exact Or.inr (Or.inl ⟨_, rfl⟩)
      · split
        · exact Or.inr (Or.inr (Or.inl ⟨_, _, rfl⟩))
        · exact Or.inr (Or.inr (Or.inr ⟨_, _, rfl⟩))
  · exact Or.inl ⟨_, rfl⟩

/-- Result and trace shapes of Uint8BitXor. -/
theorem uint8BitXor_cases (sc oc : Int) (g : GoRef Nat) (lct rct : GoRef (Fin 256)) :
    (∃ e, uint8BitXor sc oc g lct rct = (.error e, [])) ∨
    (∃ e, uint8BitXor sc oc g lct rct
      = (.error e, [Ev.lockThread, Ev.unlockThread])) ∨
    (∃ e n, uint8BitXor sc oc g lct rct
      = (.error e, [Ev.lockThread, Ev.setKey n, Ev.unsetKey, Ev.unlockThread])) ∨
    (∃ ct n, uint8BitXor sc oc g lct rct
      = (.ok ct, [Ev.lockThread, Ev.setKey n, Ev.unsetKey, Ev.unlockThread])) := by
  unfold uint8BitXor withServerKey
  split
  · split
    · exact Or.inl ⟨_, rfl⟩
    · split
      · exact Or.inr (Or.inl ⟨_, rfl⟩)
      · split
        · exact Or.inr (Or.inr (Or.inl ⟨_, _, rfl⟩))
        · exact Or.inr (Or.inr (Or.inr ⟨_, _, rfl⟩))
  · exact Or.inl ⟨_, rfl⟩

/-- The boolean binary gate wrapper releases every handle it creates, for
any gate and any inputs. -/
theorem binaryOp_balanced (op : GoRef Bool → GoRef Bool → Except Err (GoRef Bool))
    (l r : String) : balanced (binaryOp op l r st0).2.evs := by
  unfold binaryOp
  rcases svcDeserialize_cases l st0 with ⟨e1, h1⟩ | ⟨lct, h1⟩ <;> simp only [h1]
  · decide
  · rcases svcDeserialize_cases r ⟨st0.nextId + 1, st0.evs ++ [Ev.alloc st0.nextId]⟩
      with ⟨e2, h2⟩ | ⟨rct, h2⟩ <;> simp only [h2]
    · decide
    · rcases hop : op lct rct with e3 | outCt <;> simp only [hop]
      · decide
      · rcases hs : serializeToBase64 outCt with e4 | str <;> simp only [hs] <;>
          decide

/-- EncryptBoolToBase64 releases every handle it creates. -/
theorem encryptB64_balanced (svc : BooleanService) (v : Bool) :
    balanced (encryptBoolToBase64 svc v st0).2.evs := by
  unfold encryptBoolToBase64
  rcases he : encryptBool svc.client v with e | ct <;> simp only [he]
  · decide
  · rcases hs : serializeToBase64 ct with e | str <;> simp only [hs] <;> decide

/-- DecryptBoolFromBase64 releases every handle it creates. -/
theorem decryptB64_balanced (svc : BooleanService) (inp : String) :
    balanced (decryptBoolFromBase64 svc inp st0).2.evs := by
  unfold decryptBoolFromBase64
  rcases svcDeserialize_cases inp st0 with ⟨e, h⟩ | ⟨ct, h⟩ <;> simp only [h] <;>
    decide

/-- NotBase64 releases every handle it creates. -/
theorem notB64_balanced (svc : BooleanService) (inp : String) :
    balanced (notBase64 svc inp st0).2.evs := by
  unfold notBase64
  rcases svcDeserialize_cases inp st0 with ⟨e, h⟩ | ⟨ct, h⟩ <;> simp only [h]
  · decide
  · rcases hop : serverKeyNot svc.server ct with e | outCt <;> simp only [hop]
    · decide
    · rcases hs : serializeToBase64 outCt with e | str <;> simp only [hs] <;> decide

/-- The integer binary wrapper releases every handle it creates, for any
ambient operation with the scope trace shapes of the three primitives. -/
theorem binaryUint8_balanced
    (op : GoRef (Fin 256) → GoRef (Fin 256) → Except Err (GoRef (Fin 256)) × List Ev)
    (hop : ∀ lct rct,
      (∃ e, op lct rct = (.error e, [])) ∨
      (∃ e, op lct rct = (.error e, [Ev.lockThread, Ev.unlockThread])) ∨
      (∃ e n, op lct rct
        = (.error e, [Ev.lockThread, Ev.setKey n, Ev.unsetKey, Ev.unlockThread])) ∨
      (∃ ct n, op lct rct
        = (.ok ct, [Ev.lockThread, Ev.setKey n, Ev.unsetKey, Ev.unlockThread])))
    (l r : String) : balanced (binaryUint8 op l r st0).2.evs := by
  unfold binaryUint8
  rcases svcDeserializeU8_cases l st0 with ⟨e1, h1⟩ | ⟨lct, h1⟩ <;> simp only [h1]
  · decide
  · rcases svcDeserializeU8_cases r ⟨st0.nextId + 1, st0.evs ++ [Ev.alloc st0.nextId]⟩
      with ⟨e2, h2⟩ | ⟨rct, h2⟩ <;> simp only [h2]
    · decide
    · rcases hop lct rct with ⟨e3, h3⟩ | ⟨e3, h3⟩ | ⟨e3, n, h3⟩ | ⟨ct, n, h3⟩ <;>
        simp only [h3]
      · decide
      · decide
      · simp only [balanced, st0, St.alloc, St.app, St.rel, allocIds, releaseIds,
          List.filterMap_cons, List.filterMap_nil, List.append_assoc,
          List.cons_append, List.nil_append] <;> decide
      · rcases hs : serializeUint8ToBase64 ct with e4 | str <;> simp only [hs] <;>
          simp only [balanced, st0, St.alloc, St.app, St.rel, allocIds, releaseIds,
            List.filterMap_cons, List.filterMap_nil, List.append_assoc,
            List.cons_append, List.nil_append] <;> decide

/-- Uint8Service.Encrypt releases every handle it creates. -/
theorem svcEncryptU8_balanced (w : U8World) (u : Fin 256) :
    balanced (svcEncrypt w u st0).2.evs := by
  unfold svcEncrypt
  rcases he : encryptUint8 (u8clientRef w) u with e | ct <;> simp only [he]
  · decide
  · rcases hs : serializeUint8ToBase64 ct with e | str <;> simp only [hs] <;> decide

/-- Uint8Service.EncryptWithPublic releases every handle it creates. -/
theorem svcEncryptPub_balanced (w : U8World) (u : Fin 256) :
    balanced (svcEncryptWithPublic w u st0).2.evs := by
  unfold svcEncryptWithPublic
  rcases he : encryptUint8Public (u8publicRef w) u with e | ct <;> simp only [he]
  · decide
  · rcases hs : serializeUint8ToBase64 ct with e | str <;> simp only [hs] <;> decide

/-- Uint8Service.Decrypt releases every handle it creates. -/
theorem svcDecryptU8_balanced (w : U8World) (inp : String) :
    balanced (svcDecrypt w inp st0).2.evs := by
  unfold svcDecrypt
  rcases svcDeserializeU8_cases inp st0 with ⟨e, h⟩ | ⟨ct, h⟩ <;> simp only [h] <;>
    decide

/-- C9: every service operation of both families — encrypt, decrypt, the
binary gates and NOT, and the integer Add/BitAnd/BitXor — releases every
ciphertext handle it creates before returning, on every exit path including
error returns: handle creations and releases in the operation trace match
exactly. -/
theorem service_ops_release_all_handles (bsvc : BooleanService) (w : U8World)
    (sc oc : Int) (l r inp : String) (v : Bool) (u : Fin 256) :
    balanced (encryptBoolToBase64 bsvc v st0).2.evs ∧
    balanced (decryptBoolFromBase64 bsvc inp st0).2.evs ∧
    balanced (andBase64 bsvc l r st0).2.evs ∧
    balanced (orBase64 bsvc l r st0).2.evs ∧
    balanced (xorBase64 bsvc l r st0).2.evs ∧
    balanced (notBase64 bsvc inp st0).2.evs ∧
    balanced (svcEncrypt w u st0).2.evs ∧
    balanced (svcEncryptWithPublic w u st0).2.evs ∧
    balanced (svcDecrypt w inp st0).2.evs ∧
    balanced (svcAdd sc oc w l r st0).2.evs ∧
    balanced (svcBitAnd sc oc w l r st0).2.evs ∧
    balanced (svcBitXor sc oc w l r st0).2.evs :=
  ⟨encryptB64_balanced bsvc v,
   decryptB64_balanced bsvc inp,
   binaryOp_balanced (serverKeyAnd bsvc.server) l r,
   binaryOp_balanced (serverKeyOr bsvc.server) l r,
   binaryOp_balanced (serverKeyXor bsvc.server) l r,
   notB64_balanced bsvc inp,
   svcEncryptU8_balanced w u,
   svcEncryptPub_balanced w u,
   svcDecryptU8_balanced w inp,
   binaryUint8_balanced (uint8Add sc oc (defaultUint8ServerKey w))
     (fun lct rct => uint8Add_cases sc oc (defaultUint8ServerKey w) lct rct) l r,
   binaryUint8_balanced (uint8BitAnd sc oc (defaultUint8ServerKey w))
     (fun lct rct => uint8BitAnd_cases sc oc (defaultUint8ServerKey w) lct rct) l r,
   binaryUint8_balanced (uint8BitXor sc oc (defaultUint8ServerKey w))
     (fun lct rct => uint8BitXor_cases sc oc (defaultUint8ServerKey w) lct rct) l r⟩

end TfheGo
